import Mathlib

/-!
A verification development for the relay-and-resilience engine of the
Anti-Anti-Bot repository.  The Python sources are shallowly embedded:
pure fragments become Lean functions, the stateful orchestrator loop
becomes an explicit step function on a state type, and code that can
raise becomes Except-valued.  Browser-facing primitives (Playwright
calls) are abstracted into environment records that record, per program
point, whether the operation succeeded and what it observed.
-/

namespace AntiAntiBot

/-! ## Python string primitives

The orchestrators use `sub in s` (substring test), `s.startswith(p)`,
`s.strip()`, `s.replace(a, b)` and truthiness of strings.  We model them
over the character lists of Lean strings.
-/

/-- List-level test that the first list is a prefix of the second
(model of prefix comparison used by str.startswith). -/
def charsStartWith : List Char → List Char → Bool
  | [], _ => true
  | _ :: _, [] => false
  | p :: ps, c :: cs => p == c && charsStartWith ps cs

/-- List-level test that the first list occurs contiguously inside the
second (model of the Python operator for substring containment). -/
def charsContain (pat : List Char) : List Char → Bool
  | [] => charsStartWith pat []
  | c :: cs => charsStartWith pat (c :: cs) || charsContain pat cs

/-- Model of the Python expression testing that string p is a substring of s
(used for the termination phrase check). -/
def pyContains (s p : String) : Bool := charsContain p.data s.data

/-- Model of the Python expression testing that s starts with p
(used for the routing-control phrases). -/
def pyStartsWith (s p : String) : Bool := charsStartWith p.data s.data

/-- The whitespace characters stripped by Python str.strip(). -/
def isPyWs (c : Char) : Bool :=
  c == ' ' || c == '\t' || c == '\n' || c == '\r' ||
  c == Char.ofNat 11 || c == Char.ofNat 12

/-- Model of Python str.strip(): drop leading and trailing whitespace. -/
def pyStrip (s : String) : String :=
  ⟨((s.data.dropWhile isPyWs).reverse.dropWhile isPyWs).reverse⟩

/-- Model of the guard in send_message_robust, Python
not message or not message.strip(): the message is empty or whitespace. -/
def pyBlank (s : String) : Bool := s == "" || pyStrip s == ""

/-- Fuel-indexed replacement of every occurrence of pat by rep
(model of Python str.replace).  The fuel is the length of the scanned
list, which bounds the number of scan positions. -/
def replaceFuel (pat rep : List Char) : Nat → List Char → List Char
  | 0, l => l
  | _ + 1, [] => []
  | n + 1, c :: cs =>
      if pat ≠ [] && charsStartWith pat (c :: cs) then
        rep ++ replaceFuel pat rep n ((c :: cs).drop pat.length)
      else
        c :: replaceFuel pat rep n cs

/-- Model of Python s.replace(pat, rep) for a nonempty pattern. -/
def pyReplace (s pat rep : String) : String :=
  ⟨replaceFuel pat.data rep.data s.data.length s.data⟩

/-- Boolean success test for an Except value. -/
def exceptIsOk {ε α : Type} : Except ε α → Bool
  | .ok _ => true
  | .error _ => false

/-! ## Configuration constants (config.py and module constants) -/

/-- config.py: the reserved termination phrase. -/
def TERMINATION_PHRASE : String := "TASK_COMPLETED_SUCCESSFULLY"

/-- config.py: the start command injected on a fresh handshake. -/
def START_CMD_MSG : String := "请启动双编码协作流程并开始您的协调任务。"

/-- orchestrator.py: the L4 recovery threshold (MAX_ERRORS = 3). -/
def MAX_ERRORS : Nat := 3

/-- config.py: arrival-wait bound of wait_for_initial_change, in ms. -/
def ARRIVAL_TIMEOUT_MS : Nat := 30000

/-- config.py: Config.Timeouts.AI_GENERATION_MS, the busy-indicator bound. -/
def AI_GENERATION_MS : Nat := 120000

/-- config.py: Config.Timeouts.WAIT_FOR_CHANGE_MS, the quiescence ceiling. -/
def WAIT_FOR_CHANGE_MS : Nat := 180000

/-! ## SessionIdentity (class Session in core_actions.py)

Python random.Random(seed) is deterministic in the seed.  We abstract it
as an RNGModel: a family of draw functions indexed by the seed and by the
position of the draw in the seed's stream.  The model is a parameter of
every definition that consumes randomness, so theorems quantify over it.
-/

/-- Abstract model of the seeded generator random.Random(seed).
uniformNat seed idx lo hi is the idx-th draw of stream seed interpreted
as rng.uniform(lo, hi) (durations are modelled as whole seconds);
choice2 seed idx is the idx-th draw interpreted as rng.choice over a
two-element list. -/
structure RNGModel where
  uniformNat : Nat → Nat → Nat → Nat → Nat
  choice2 : Nat → Nat → Fin 2

/-- The persona behavioural parameters (core_actions.py personas dict). -/
structure BehavioralParams where
  pIdleTrigger : Rat
deriving DecidableEq, Repr

/-- core_actions.py personas table: rng.choice picks one of the two keys. -/
def personaTable : Fin 2 → String × BehavioralParams :=
  fun i =>
    if i = 0 then ("new_user", ⟨(3 : Rat) / 10⟩)
    else ("experienced_user", ⟨(3 : Rat) / 20⟩)

/-- Model of class Session (core_actions.py): seed, rng stream position,
task lock, persona name and behavioural parameters. -/
structure Session where
  session_seed : Nat
  rngIdx : Nat
  task_lock : Bool
  persona_name : String
  behavioral_params : BehavioralParams
deriving DecidableEq, Repr

/-- Model of Session.__init__ (core_actions.py): remember the seed, seed
the rng, clear the task lock, and derive the persona from the first draw
of the seed's stream. -/
def mkSession (R : RNGModel) (seed : Nat) : Session :=
  let p := personaTable (R.choice2 seed 0)
  { session_seed := seed
    rngIdx := 1
    task_lock := false
    persona_name := p.1
    behavioral_params := p.2 }

/-! ## The L4 recovery branch of run_orchestrator (orchestrator.py 186-211)

The except branch increments error_count; at MAX_ERRORS it sleeps a
cooldown drawn from the current session's rng via uniform(15, 45),
builds a new Session seeded with int(time.time()) taken after the sleep,
resets error_count, forces start_mode to new, and control returns to the
top of the outer loop (the handshake phase).  Wall-clock time is
modelled as a Nat that the cooldown sleep advances; the seed of a
session is the clock value at which it was created.
-/

/-- The entry start modes of run_orchestrator (orchestrator.py). -/
inductive StartMode
  | new
  | resumeFromA
  | resumeFromB
deriving DecidableEq, Repr

/-- The state mutated by the recovery branch: the live session, the
consecutive error count, the start mode and the model clock. -/
structure RecoveryState where
  session : Session
  errorCount : Nat
  startMode : StartMode
  clock : Nat
deriving DecidableEq, Repr

/-- Model of the except branch of run_orchestrator (orchestrator.py
186-211): increment error_count; if the threshold is reached, draw the
cooldown from the current session's rng, sleep it (advancing the clock),
replace the session wholesale with one seeded from the new clock value,
reset error_count, and force start_mode to new.  Returns the new state
and the cooldown duration when a rotation happened. -/
def applyFailure (R : RNGModel) (s : RecoveryState) : RecoveryState × Option Nat :=
  let ec := s.errorCount + 1
  if MAX_ERRORS ≤ ec then
    let d := R.uniformNat s.session.session_seed s.session.rngIdx 15 45
    let clock2 := s.clock + d
    ({ session := mkSession R clock2
       errorCount := 0
       startMode := .new
       clock := clock2 }, some d)
  else
    ({ s with errorCount := ec }, none)

/-- The outcome of one execution of the outer-loop body: it either
completed a full collaboration round (error_count reset, orchestrator.py
176-179) or raised a failure caught by the except branch. -/
inductive TurnResult
  | ok
  | fail
deriving DecidableEq, Repr

/-- Where control sits after a processed outcome: inside the inner
cycle, or back at the top of the outer loop (handshake phase). -/
inductive OuterControl
  | cycling
  | handshakeRetry
deriving DecidableEq, Repr

/-- The recovery state together with the control position and the record
of cooldown sleeps performed so far. -/
structure RecRun where
  rs : RecoveryState
  control : OuterControl
  sleeps : List Nat
deriving DecidableEq, Repr

/-- Process one outer-loop body outcome: a successful round resets
error_count (orchestrator.py 176-179) and keeps cycling; a raised
failure runs the except branch and returns control to the outer-loop
top, recording the cooldown sleep if a rotation happened. -/
def recStep (R : RNGModel) (s : RecRun) (r : TurnResult) : RecRun :=
  match r with
  | .ok =>
      { s with rs := { s.rs with errorCount := 0 }, control := .cycling }
  | .fail =>
      let p := applyFailure R s.rs
      { rs := p.1, control := .handshakeRetry, sleeps := s.sleeps ++ p.2.toList }

/-- Process a sequence of outer-loop body outcomes. -/
def recRun (R : RNGModel) (s : RecRun) (results : List TurnResult) : RecRun :=
  results.foldl (recStep R) s

/-! ## send_message_robust (core_actions.py 204-246)

The function first rejects blank messages and returns without doing
anything.  Otherwise it sets session.task_lock inside the try block,
performs the browser interactions (bring to front, snapshot, fill the
input box, move the mouse and click, wait for the user bubble), re-raises
any exception, and clears the lock in the finally block.  The rendered
surface is abstracted as a PageSurface; the environment says at which
body micro-step (if any) an exception is raised.
-/

/-- Abstract participant surface observed and mutated by the submission:
the chat area html fingerprint, the message anchor count and the content
of the input box. -/
structure PageSurface where
  chatHtml : String
  anchorCount : Nat
  inputText : String
deriving DecidableEq, Repr

/-- The body micro-steps of send_message_robust, in program order:
0 bring_to_front, 1 snapshots, 2 input_box.fill(message),
3 mouse move / hover / click, 4 wait_for_initial_change. -/
def sendBodyEffect (msg : String) (i : Fin 5) (p : PageSurface) : PageSurface :=
  match i with
  | ⟨2, _⟩ => { p with inputText := msg }
  | ⟨3, _⟩ => { p with inputText := "", anchorCount := p.anchorCount + 1 }
  | _ => p

/-- Run the try-block body up to (and excluding) the failing micro-step:
returns the mutated page.  failAt = none means every step ran. -/
def sendBodyRun (failAt : Option (Fin 5)) (msg : String) (p : PageSurface) : PageSurface :=
  let n : Nat := match failAt with | none => 5 | some i => i.val
  (List.finRange 5).foldl
    (fun pp i => if i.val < n then sendBodyEffect msg i pp else pp) p

/-- The observable result of one call to send_message_robust: whether it
re-raised, the final page and session, whether the task lock was
acquired at all, and the lock value observed at each executed body
micro-step. -/
structure SendOutcome where
  raised : Bool
  page : PageSurface
  session : Session
  lockAcquired : Bool
  lockTrace : List Bool
deriving DecidableEq, Repr

/-- Model of send_message_robust (core_actions.py 204-246).  A blank
message (empty or whitespace-only) returns immediately with nothing
touched.  Otherwise the task lock is set, the body runs until it
completes or the environment raises at micro-step failAt, and the
finally block clears the lock on every exit path. -/
def send_message_robust (failAt : Option (Fin 5)) (msg : String)
    (p : PageSurface) (sess : Session) : SendOutcome :=
  if pyBlank msg then
    { raised := false, page := p, session := sess
      lockAcquired := false, lockTrace := [] }
  else
    let sessLocked := { sess with task_lock := true }
    let executed : Nat := match failAt with | none => 5 | some i => i.val
    let pageOut := sendBodyRun failAt msg p
    let sessFinal := { sessLocked with task_lock := false }
    { raised := failAt.isSome
      page := pageOut
      session := sessFinal
      lockAcquired := true
      lockTrace := List.replicate executed sessLocked.task_lock }

/-! ## wait_for_ai_response (core_actions.py 59-150)

Stage 1 (wait_for_initial_change): a 30s bounded wait for a DOM pulse or
an anchor-count increase; on timeout wait_for_ai_response raises.
Stage 2: wait for the thinking indicators to be hidden, bounded by
AI_GENERATION_MS; a timeout or a stale-element error is only logged.
Stage 3: sample the rendered length until two consecutive samples agree,
bounded by WAIT_FOR_CHANGE_MS; an element failure during setup returns
early and one during the loop or exceeding the ceiling breaks out; all
of these are only logged.  The environment abstracts which of these
conditions occurred during the call.
-/

/-- What the environment did during one call of wait_for_ai_response. -/
structure WaitEnv where
  initialChange : Bool
  indicatorCount : Nat
  indicatorTimeout : Bool
  setupEvalFails : Bool
  loopEvalFails : Bool
  ceilingExceeded : Bool
deriving DecidableEq, Repr

/-- How the completion detector concluded when it did not raise. -/
inductive WaitResult
  | stable
  | assumedOnEvalFail
  | forcedOnLoopEvalFail
  | forcedByCeiling
deriving DecidableEq, Repr

/-- Model of wait_for_initial_change (core_actions.py 59-86): reports
whether a DOM change or anchor increase was seen inside the 30s bound. -/
def wait_for_initial_change (env : WaitEnv) : Bool := env.initialChange

/-- Model of wait_for_ai_response (core_actions.py 88-150).  Only a
stage-1 timeout raises; stage-2 indicator timeouts and every stage-3
irregularity are logged and the function returns normally with the
best-effort content. -/
def wait_for_ai_response (env : WaitEnv) : Except String WaitResult :=
  if wait_for_initial_change env = false then
    .error "no initial response inside the arrival window"
  else
    -- stage 2: indicator waits; a timeout only logs a warning.
    -- stage 3: the stability observation.
    if env.setupEvalFails then .ok .assumedOnEvalFail
    else if env.loopEvalFails then .ok .forcedOnLoopEvalFail
    else if env.ceilingExceeded then .ok .forcedByCeiling
    else .ok .stable

/-! ## get_latest_message_safe (core_actions.py 249-300)

The JS script walks the message containers from last to first and
returns the first nonempty trimmed markdown text, else the nonempty
trimmed clone text; if it found nothing the Python fallback takes the
raw text of the last container, strips the known button labels and
strips whitespace.  Whatever remains (possibly empty) is returned and
logged as a success; only a raised Playwright error propagates.
-/

/-- One message container as the extraction script sees it: the trimmed
markdown element text and the clone text after noise removal, plus the
raw inner_text used by the Python fallback. -/
structure MsgContainer where
  cleanMarkdown : String
  cleanFull : String
  rawFull : String
deriving DecidableEq, Repr

/-- The per-container choice of the JS script: nonempty trimmed markdown
text first, else nonempty trimmed clone text, else nothing. -/
def jsPick (c : MsgContainer) : Option String :=
  if pyStrip c.cleanMarkdown ≠ "" then some (pyStrip c.cleanMarkdown)
  else if pyStrip c.cleanFull ≠ "" then some (pyStrip c.cleanFull)
  else none

/-- Walk containers (already reversed: last message first) and return
the first hit of jsPick, defaulting to the empty string. -/
def jsExtractGo : List MsgContainer → String
  | [] => ""
  | c :: rest =>
      match jsPick c with
      | some t => t
      | none => jsExtractGo rest

/-- Model of the js_get_last_message_script evaluation. -/
def jsExtractLast (ms : List MsgContainer) : String := jsExtractGo ms.reverse

/-- The button labels removed by the Python fallback. -/
def BUTTON_TEXTS : List String := ["复制", "修改回复", "分享和导出", "赞", "踩", "更多选项"]

/-- Strip every known button label (full_text.replace(btn_txt, "")). -/
def removeButtonTexts (s : String) : String :=
  BUTTON_TEXTS.foldl (fun acc b => pyReplace acc b "") s

/-- Model of get_latest_message_safe (core_actions.py 249-300).  opFail
abstracts a raised Playwright error anywhere in the try block; when no
error is raised the extracted text — empty or not — is returned as a
success. -/
def get_latest_message_safe (ms : List MsgContainer) (opFail : Bool) :
    Except String String :=
  if opFail then .error "extraction raised"
  else
    let t := jsExtractLast ms
    if t = "" then
      match ms.getLast? with
      | some c => .ok (pyStrip (removeButtonTexts (pyStrip c.rawFull)))
      | none => .ok t
    else .ok t

/-! ## The three-party router (3_agent_ide_orchestrator.py 149-204)

The routing block of run_agent_pool_orchestrator maps the current sender
and message to the next recipient; the QA branch falls back to Coder
with a logged warning when neither control phrase is present, and no
branch raises.
-/

/-- The three roles of the agent-pool orchestrator. -/
inductive Agent3
  | planner
  | coder
  | qa
deriving DecidableEq, Repr

/-- 3_agent_ide_orchestrator.py safety phrases. -/
def PHRASE_PLAN_CREATED : String := "PLAN_CREATED"

/-- The rejected marker (QA to Coder). -/
def PHRASE_PATCH_REJECT : String := "PATCH_REJECT"

/-- The accepted marker (QA to Coder, then Coder to Planner). -/
def PHRASE_PATCH_ACCEPT : String := "PATCH_ACCEPT"

/-- The termination phrase of the three-party loop. -/
def PHRASE_TASK_COMPLETE : String := "TASK_COMPLETED_SUCCESSFULLY"

/-- The decision of one routing-block evaluation: the recipient and
whether the routing-ambiguity warning was logged. -/
structure RouteDecision where
  recipient : Agent3
  ambiguityWarned : Bool
deriving DecidableEq, Repr

/-- Model of the routing block (3_agent_ide_orchestrator.py 149-204):
Planner output always goes to Coder; Coder output goes to Planner when
it starts with the accepted marker and to QA otherwise; QA output goes
to Coder on the accepted marker, on the rejected marker, and — with the
logged warning — when neither phrase starts the message. -/
def routeNext3 (sender : Agent3) (msg : String) : RouteDecision :=
  match sender with
  | .planner => ⟨.coder, false⟩
  | .coder =>
      if pyStartsWith msg PHRASE_PATCH_ACCEPT then ⟨.planner, false⟩
      else ⟨.qa, false⟩
  | .qa =>
      if pyStartsWith msg PHRASE_PATCH_ACCEPT then ⟨.coder, false⟩
      else if pyStartsWith msg PHRASE_PATCH_REJECT then ⟨.coder, false⟩
      else ⟨.coder, true⟩

/-- Modelled from the spec: the reference routing table of the claim —
the coordinating role's output always goes to the executing role; the
executing role's output goes back to the coordinating role exactly when
it starts with the accepted marker and to the reviewing role otherwise;
the reviewing role's output always goes to the executing role. -/
def specRouteTable (sender : Agent3) (msg : String) : Agent3 :=
  match sender with
  | .planner => .coder
  | .coder =>
      if pyStartsWith msg PHRASE_PATCH_ACCEPT then .planner else .qa
  | .qa => .coder

/-! ## The relay loop of run_orchestrator (orchestrator.py 29-211)

The whole function is embedded as a step machine over its program
points.  Each fallible Playwright operation consults the environment:
either it succeeds or it raises, in which case control passes to the
except branch (applyFailure above) and then back to the outer-loop top.
The external stop flag of the BackendWorker is read exactly at the four
checkpoints of the source.  Each step advances a step index used to
address the environment streams.
-/

/-- The two participants of the two-party relay. -/
inductive AgentAB
  | A
  | B
deriving DecidableEq, Repr

/-- How a run of the relay loop ended. -/
inductive Outcome
  | finished
  | stopped
deriving DecidableEq, Repr

/-- The program points of run_orchestrator (orchestrator.py): the outer
stop check, the handshake branches per start mode, and the inner-cycle
points including the three inner checkpoints. -/
inductive Phase
  | p0CheckStop
  | hsDispatch
  | hsNewStability
  | hsNewCheckEmpty
  | hsNewSend
  | hsNewAwait
  | hsResAStability
  | hsResBStabB
  | hsResBExtract
  | hsResBStabA
  | hsResBSend
  | hsResBAwait
  | cp1
  | extractA
  | termCheck
  | stabilityB
  | cp2
  | sendB
  | awaitB
  | extractB
  | cp3
  | sendA
  | awaitA
  | resetErr
  | terminal (o : Outcome)
deriving DecidableEq, Repr

/-- The observable events of the relay loop. -/
inductive Event
  | submitted (target : AgentAB) (msg : String)
  | extracted (source : AgentAB) (msg : String)
  | rotated (cooldown : Nat)
  | finishedTask (finalMsg : String)
  | stoppedByRequest
deriving DecidableEq, Repr

/-- The environment of a run, addressed by the step index: the stop flag
as read at that step, whether the fallible operation of that step
raises, the texts extracted from either page, and whether page A shows
no message anchors during the handshake check. -/
structure MEnv where
  stop : Nat → Bool
  fails : Nat → Bool
  extA : Nat → String
  extB : Nat → String
  emptyA : Nat → Bool

/-- The machine state: recovery bookkeeping (session, error count, start
mode, clock), the current program point, the two message registers of
the cycle and the step index. -/
structure MState where
  recSt : RecoveryState
  phase : Phase
  msgA : String
  msgB : String
  stepIdx : Nat
deriving Repr

/-- Move to a program point, advancing the step index. -/
def goto (s : MState) (p : Phase) : MState :=
  { s with phase := p, stepIdx := s.stepIdx + 1 }

/-- A raised failure: run the except branch of run_orchestrator and
return control to the outer-loop top, reporting a rotation event when
the threshold was reached. -/
def recover (R : RNGModel) (s : MState) : MState × Option Event :=
  let p := applyFailure R s.recSt
  ({ s with recSt := p.1, phase := .p0CheckStop, stepIdx := s.stepIdx + 1 },
   p.2.map Event.rotated)

/-- Execute a fallible operation: if the environment raises at this
step, recover; otherwise take the given continuation. -/
def fallible (R : RNGModel) (env : MEnv) (s : MState)
    (next : MState × Option Event) : MState × Option Event :=
  if env.fails s.stepIdx then recover R s else next

/-- One transition of the relay loop model of run_orchestrator
(orchestrator.py 29-211), by program point. -/
def runOrchestratorStep (R : RNGModel) (env : MEnv) (s : MState) :
    MState × Option Event :=
  match s.phase with
  | .p0CheckStop =>
      if env.stop s.stepIdx then
        (goto s (.terminal .stopped), some .stoppedByRequest)
      else (goto s .hsDispatch, none)
  | .hsDispatch =>
      match s.recSt.startMode with
      | .new => (goto s .hsNewStability, none)
      | .resumeFromA => (goto s .hsResAStability, none)
      | .resumeFromB => (goto s .hsResBStabB, none)
  | .hsNewStability => fallible R env s (goto s .hsNewCheckEmpty, none)
  | .hsNewCheckEmpty =>
      if env.emptyA s.stepIdx then (goto s .hsNewSend, none)
      else (goto s .cp1, none)
  | .hsNewSend =>
      fallible R env s (goto s .hsNewAwait, some (.submitted .A START_CMD_MSG))
  | .hsNewAwait => fallible R env s (goto s .cp1, none)
  | .hsResAStability => fallible R env s (goto s .cp1, none)
  | .hsResBStabB => fallible R env s (goto s .hsResBExtract, none)
  | .hsResBExtract =>
      fallible R env s
        ({ goto s .hsResBStabA with msgB := env.extB s.stepIdx },
         some (.extracted .B (env.extB s.stepIdx)))
  | .hsResBStabA => fallible R env s (goto s .hsResBSend, none)
  | .hsResBSend =>
      fallible R env s (goto s .hsResBAwait, some (.submitted .A s.msgB))
  | .hsResBAwait => fallible R env s (goto s .cp1, none)
  | .cp1 =>
      if env.stop s.stepIdx then
        (goto s (.terminal .stopped), some .stoppedByRequest)
      else (goto s .extractA, none)
  | .extractA =>
      fallible R env s
        ({ goto s .termCheck with msgA := env.extA s.stepIdx },
         some (.extracted .A (env.extA s.stepIdx)))
  | .termCheck =>
      if pyContains s.msgA TERMINATION_PHRASE then
        (goto s (.terminal .finished), some (.finishedTask s.msgA))
      else (goto s .stabilityB, none)
  | .stabilityB => fallible R env s (goto s .cp2, none)
  | .cp2 =>
      if env.stop s.stepIdx then
        (goto s (.terminal .stopped), some .stoppedByRequest)
      else (goto s .sendB, none)
  | .sendB => fallible R env s (goto s .awaitB, some (.submitted .B s.msgA))
  | .awaitB => fallible R env s (goto s .extractB, none)
  | .extractB =>
      fallible R env s
        ({ goto s .cp3 with msgB := env.extB s.stepIdx },
         some (.extracted .B (env.extB s.stepIdx)))
  | .cp3 =>
      if env.stop s.stepIdx then
        (goto s (.terminal .stopped), some .stoppedByRequest)
      else (goto s .sendA, none)
  | .sendA => fallible R env s (goto s .awaitA, some (.submitted .A s.msgB))
  | .awaitA => fallible R env s (goto s .resetErr, none)
  | .resetErr =>
      ({ goto s .cp1 with recSt := { s.recSt with errorCount := 0 } }, none)
  | .terminal _ => (s, none)

/-- The state after n transitions from s0. -/
def stateAt (R : RNGModel) (env : MEnv) (s0 : MState) : Nat → MState
  | 0 => s0
  | n + 1 => (runOrchestratorStep R env (stateAt R env s0 n)).1

/-- The event emitted by the transition leaving the n-th state. -/
def eventAt (R : RNGModel) (env : MEnv) (s0 : MState) (n : Nat) : Option Event :=
  (runOrchestratorStep R env (stateAt R env s0 n)).2

/-- The four program points at which the stop flag is read
(orchestrator.py 47, 101, 131, 162). -/
def isCheckpoint : Phase → Bool
  | .p0CheckStop => true
  | .cp1 => true
  | .cp2 => true
  | .cp3 => true
  | _ => false

/-- The program points belonging to the two resume handshakes. -/
def isResumePhase : Phase → Bool
  | .hsResAStability => true
  | .hsResBStabB => true
  | .hsResBExtract => true
  | .hsResBStabA => true
  | .hsResBSend => true
  | .hsResBAwait => true
  | _ => false

/-! ## Concrete fixtures used by the witness theorems -/

/-- A concrete rng interpretation: every uniform draw returns the lower
bound and every choice picks the first element. -/
def R0 : RNGModel := { uniformNat := fun _ _ lo _ => lo, choice2 := fun _ _ => 0 }

/-- A concrete session created at clock value 50. -/
def session0 : Session := mkSession R0 50

/-- A concrete recovery state holding session0 with a clean error count. -/
def recSt0 : RecoveryState :=
  { session := session0, errorCount := 0, startMode := .resumeFromA, clock := 50 }

/-- A concrete outer-loop bookkeeping state for the recovery model. -/
def recRun0 : RecRun := { rs := recSt0, control := .cycling, sleeps := [] }

/-- A concrete participant surface. -/
def page0 : PageSurface := { chatHtml := "<p>早安</p>", anchorCount := 2, inputText := "" }

/-- A concrete machine start state in mode new. -/
def smNew : MState :=
  { recSt := { recSt0 with startMode := .new }, phase := .p0CheckStop,
    msgA := "", msgB := "", stepIdx := 0 }

/-- A concrete machine start state in mode resume-from-primary. -/
def smResA : MState :=
  { recSt := recSt0, phase := .p0CheckStop, msgA := "", msgB := "", stepIdx := 0 }

/-- An environment in which every operation succeeds, the stop flag is
never raised, page A is nonempty, A always answers a neutral text and B
answers a text containing the termination phrase in the middle. -/
def envRelay : MEnv :=
  { stop := fun _ => false, fails := fun _ => false,
    extA := fun _ => "继续", extB := fun _ => "好的 TASK_COMPLETED_SUCCESSFULLY",
    emptyA := fun _ => false }

/-- An environment in which every fallible operation raises. -/
def envFail : MEnv :=
  { stop := fun _ => false, fails := fun _ => true,
    extA := fun _ => "x", extB := fun _ => "y", emptyA := fun _ => false }

/-- An environment whose stop flag becomes (and stays) set from step
index 4 on, with every operation succeeding. -/
def envStop4 : MEnv :=
  { stop := fun n => decide (4 ≤ n), fails := fun _ => false,
    extA := fun _ => "x", extB := fun _ => "y", emptyA := fun _ => false }

/-! ## Helper lemmas about the recovery model -/

/-- Below the threshold, the except branch only increments the count. -/
theorem applyFailure_below (R : RNGModel) (r : RecoveryState)
    (h : ¬ MAX_ERRORS ≤ r.errorCount + 1) :
    applyFailure R r = ({ r with errorCount := r.errorCount + 1 }, none) := by
  simp [applyFailure, h]

/-- At the threshold, the except branch rotates the identity. -/
theorem applyFailure_at_threshold (R : RNGModel) (r : RecoveryState)
    (h : MAX_ERRORS ≤ r.errorCount + 1) :
    applyFailure R r =
      ({ session :=
          mkSession R (r.clock + R.uniformNat r.session.session_seed r.session.rngIdx 15 45),
         errorCount := 0,
         startMode := .new,
         clock := r.clock + R.uniformNat r.session.session_seed r.session.rngIdx 15 45 },
       some (R.uniformNat r.session.session_seed r.session.rngIdx 15 45)) := by
  simp [applyFailure, h]

/-- A failure processed by the except branch never changes the start
mode away from new. -/
theorem applyFailure_keeps_new (R : RNGModel) (r : RecoveryState)
    (h : r.startMode = .new) : (applyFailure R r).1.startMode = .new := by
  by_cases hc : MAX_ERRORS ≤ r.errorCount + 1
  · simp [applyFailure, hc]
  · simp [applyFailure, hc, h]

/-- When the except branch reports a cooldown, it rotated: the start
mode is forced to new. -/
theorem applyFailure_rotated_mode (R : RNGModel) (r : RecoveryState) (d : Nat)
    (h : (applyFailure R r).2 = some d) : (applyFailure R r).1.startMode = .new := by
  by_cases hc : MAX_ERRORS ≤ r.errorCount + 1
  · simp [applyFailure, hc]
  · simp [applyFailure, hc] at h

/-! ## C1 and C4: the resilience supervisor -/

/-- C1: starting from a clean error count, a run of exactly MAX_ERRORS
(= 3) consecutive turn failures performs exactly one cooldown sleep,
whose duration is the next uniform(15, 45) draw of the current session's
rng and lies in 15..45; the session is then replaced wholesale by one
built from the strictly later clock value (hence a different seed, with
persona and behavioural parameters re-derived from it and the task lock
cleared); the error count is reset to 0, the start mode is forced to
new, and control returns to the outer-loop top (the handshake phase) —
the run is not aborted. -/
theorem rotation_on_third_consecutive_failure (R : RNGModel) (s0 : RecRun)
    (hU : 15 ≤ R.uniformNat s0.rs.session.session_seed s0.rs.session.rngIdx 15 45 ∧
      R.uniformNat s0.rs.session.session_seed s0.rs.session.rngIdx 15 45 ≤ 45)
    (h0 : s0.rs.errorCount = 0)
    (hseed : s0.rs.session.session_seed ≤ s0.rs.clock)
    (hsleep : s0.sleeps = []) :
    (recRun R s0 [.fail, .fail, .fail]).sleeps =
      [R.uniformNat s0.rs.session.session_seed s0.rs.session.rngIdx 15 45] ∧
    15 ≤ R.uniformNat s0.rs.session.session_seed s0.rs.session.rngIdx 15 45 ∧
    R.uniformNat s0.rs.session.session_seed s0.rs.session.rngIdx 15 45 ≤ 45 ∧
    (recRun R s0 [.fail, .fail, .fail]).rs.session =
      mkSession R (s0.rs.clock +
        R.uniformNat s0.rs.session.session_seed s0.rs.session.rngIdx 15 45) ∧
    (recRun R s0 [.fail, .fail, .fail]).rs.session.session_seed ≠
      s0.rs.session.session_seed ∧
    (recRun R s0 [.fail, .fail, .fail]).rs.session.task_lock = false ∧
    (recRun R s0 [.fail, .fail, .fail]).rs.errorCount = 0 ∧
    (recRun R s0 [.fail, .fail, .fail]).rs.startMode = .new ∧
    (recRun R s0 [.fail, .fail, .fail]).control = .handshakeRetry := by
  obtain ⟨hU1, hU2⟩ := hU
  have hb1 : ¬ MAX_ERRORS ≤ s0.rs.errorCount + 1 := by rw [h0]; decide
  have e1 : recStep R s0 .fail =
      { rs := { s0.rs with errorCount := 1 }, control := .handshakeRetry,
        sleeps := [] } := by
    simp [recStep, applyFailure_below R s0.rs hb1, h0, hsleep]
  have hb2 : ¬ MAX_ERRORS ≤
      ({ s0.rs with errorCount := 1 } : RecoveryState).errorCount + 1 := by
    norm_num [MAX_ERRORS]
  have e2 : recStep R (recStep R s0 .fail) .fail =
      { rs := { s0.rs with errorCount := 2 }, control := .handshakeRetry,
        sleeps := [] } := by
    rw [e1]
    simp [recStep, applyFailure_below R _ hb2]
  have hb3 : MAX_ERRORS ≤
      ({ s0.rs with errorCount := 2 } : RecoveryState).errorCount + 1 := by
    norm_num [MAX_ERRORS]
  have e3 : recRun R s0 [.fail, .fail, .fail] =
      recStep R (recStep R (recStep R s0 .fail) .fail) .fail := by
    simp [recRun, List.foldl]
  rw [e3, e2]
  rw [recStep]
  rw [applyFailure_at_threshold R _ hb3]
  refine ⟨by simp, hU1, hU2, by simp, ?_, by simp [mkSession], by simp, by simp, by simp⟩
  simp only [mkSession]
  omega

/-- C4: starting from a clean error count, any sequence of j < MAX_ERRORS
consecutive turn failures leaves the error count at exactly j, the
session untouched (same seed, persona and behavioural parameters), the
start mode and clock untouched, performs no cooldown sleep, and leaves
control back at the outer-loop top (handshake phase) after each failed
turn. -/
theorem subthreshold_failures_preserve_identity (R : RNGModel) (s0 : RecRun)
    (h0 : s0.rs.errorCount = 0) (hsleep : s0.sleeps = [])
    (j : Nat) (hj : j < MAX_ERRORS) :
    (recRun R s0 (List.replicate j .fail)).rs.errorCount = j ∧
    (recRun R s0 (List.replicate j .fail)).rs.session = s0.rs.session ∧
    (recRun R s0 (List.replicate j .fail)).rs.startMode = s0.rs.startMode ∧
    (recRun R s0 (List.replicate j .fail)).rs.clock = s0.rs.clock ∧
    (recRun R s0 (List.replicate j .fail)).sleeps = [] ∧
    (0 < j → (recRun R s0 (List.replicate j .fail)).control = .handshakeRetry) := by
  induction j with
  | zero =>
      simp [recRun, List.replicate, h0, hsleep]
  | succ n ih =>
      obtain ⟨ih1, ih2, ih3, ih4, ih5, _⟩ := ih (by omega)
      have hsplit : recRun R s0 (List.replicate (n + 1) .fail) =
          recStep R (recRun R s0 (List.replicate n .fail)) .fail := by
        rw [List.replicate_succ']
        simp [recRun, List.foldl_append]
      rw [hsplit, recStep]
      rw [applyFailure_below R _ (by omega)]
      refine ⟨by simp [ih1], by simp [ih2], by simp [ih3], by simp [ih4],
        by simp [ih5], fun _ => rfl⟩

/-- Witness for C1 at a concrete rng model and start state. -/
theorem rotation_on_third_consecutive_failure_witness :
    (recRun R0 recRun0 [.fail, .fail, .fail]).sleeps = [15] ∧
    (recRun R0 recRun0 [.fail, .fail, .fail]).rs.session.session_seed ≠
      recRun0.rs.session.session_seed ∧
    (recRun R0 recRun0 [.fail, .fail, .fail]).rs.errorCount = 0 ∧
    (recRun R0 recRun0 [.fail, .fail, .fail]).rs.startMode = .new := by
  have h := rotation_on_third_consecutive_failure R0 recRun0
    (by exact ⟨by norm_num [R0], by norm_num [R0]⟩) rfl (by norm_num [recRun0, recSt0, session0, mkSession]) rfl
  exact ⟨h.1, h.2.2.2.2.1, h.2.2.2.2.2.2.1, h.2.2.2.2.2.2.2.1⟩

/-- Witness for C4 at a concrete rng model and start state. -/
theorem subthreshold_failures_preserve_identity_witness :
    (recRun R0 recRun0 (List.replicate 2 .fail)).rs.errorCount = 2 ∧
    (recRun R0 recRun0 (List.replicate 2 .fail)).rs.session = recRun0.rs.session ∧
    (recRun R0 recRun0 (List.replicate 2 .fail)).sleeps = [] := by
  have h := subthreshold_failures_preserve_identity R0 recRun0 rfl rfl 2 (by norm_num [MAX_ERRORS])
  exact ⟨h.1, h.2.1, h.2.2.2.2.1⟩

/-! ## C3: the three-party routing table -/

/-- C3: on every non-terminating message the implemented routing block
agrees with the reference table (Planner always to Coder; Coder to
Planner exactly when the message starts with the accepted marker, else
to QA; QA always to Coder), and the routing-ambiguity warning is logged
exactly when QA emits neither marker — the fallback resolves to the
default recipient Coder instead of raising. -/
theorem three_party_routing_matches_reference_table (sender : Agent3) (msg : String)
    (hterm : pyContains msg PHRASE_TASK_COMPLETE = false) :
    (routeNext3 sender msg).recipient = specRouteTable sender msg ∧
    ((routeNext3 sender msg).ambiguityWarned = true ↔
      (sender = .qa ∧ pyStartsWith msg PHRASE_PATCH_ACCEPT = false ∧
        pyStartsWith msg PHRASE_PATCH_REJECT = false)) := by
  cases sender
  case planner =>
    exact ⟨rfl, by simp [routeNext3]⟩
  case coder =>
    by_cases h : pyStartsWith msg PHRASE_PATCH_ACCEPT <;>
      simp [routeNext3, specRouteTable, h]
  case qa =>
    by_cases h1 : pyStartsWith msg PHRASE_PATCH_ACCEPT <;>
      by_cases h2 : pyStartsWith msg PHRASE_PATCH_REJECT <;>
      simp [routeNext3, specRouteTable, h1, h2]

/-- Witness for C3: a QA message with neither marker routes to Coder
with the ambiguity warning. -/
theorem three_party_routing_matches_reference_table_witness :
    pyContains "请修复越界访问" PHRASE_TASK_COMPLETE = false ∧
    (routeNext3 .qa "请修复越界访问").recipient = specRouteTable .qa "请修复越界访问" ∧
    (routeNext3 .qa "请修复越界访问").ambiguityWarned = true := by
  have h := three_party_routing_matches_reference_table .qa "请修复越界访问" (by decide)
  exact ⟨by decide, h.1, h.2.mpr ⟨rfl, by decide, by decide⟩⟩

/-! ## C5 and C9: the submission operation -/

/-- C5: whatever the message and whichever body micro-step raises (or
none), if the task lock is clear on entry then it is clear again on
every exit path of send_message_robust — normal return and re-raised
failure alike — and whenever the submission body runs at all the lock is
held (true) at every executed body micro-step. -/
theorem task_lock_cleared_on_all_exit_paths (failAt : Option (Fin 5)) (msg : String)
    (p : PageSurface) (sess : Session) (h : sess.task_lock = false) :
    (send_message_robust failAt msg p sess).session.task_lock = false ∧
    (∀ b ∈ (send_message_robust failAt msg p sess).lockTrace, b = true) ∧
    (pyBlank msg = false → (send_message_robust failAt msg p sess).lockAcquired = true) := by
  unfold send_message_robust
  by_cases hb : pyBlank msg
  · simp [hb, h]
  · simp [hb]

/-- Witness for C5: a raising submission still exits with the lock
clear. -/
theorem task_lock_cleared_on_all_exit_paths_witness :
    (send_message_robust (some 2) "早" page0 session0).session.task_lock = false ∧
    (send_message_robust (some 2) "早" page0 session0).raised = true := by
  have h := task_lock_cleared_on_all_exit_paths (some 2) "早" page0 session0 (by decide)
  exact ⟨h.1, by decide⟩

/-- C9: a blank message (empty or whitespace-only) makes
send_message_robust a no-op: it returns without raising, the page
surface and the session (including the task lock) are exactly the ones
passed in, and the task lock is never acquired. -/
theorem blank_message_submission_is_noop (failAt : Option (Fin 5)) (msg : String)
    (p : PageSurface) (sess : Session) (h : pyBlank msg = true) :
    send_message_robust failAt msg p sess =
      { raised := false, page := p, session := sess,
        lockAcquired := false, lockTrace := [] } := by
  unfold send_message_robust
  simp [h]

/-- Witness for C9 on a whitespace-only message. -/
theorem blank_message_submission_is_noop_witness :
    send_message_robust (some 3) "  " page0 session0 =
      { raised := false, page := page0, session := session0,
        lockAcquired := false, lockTrace := [] } :=
  blank_message_submission_is_noop (some 3) "  " page0 session0 (by decide)

/-! ## C6: hard and soft completion timeouts -/

/-- C6: wait_for_ai_response raises exactly when stage 1 (the arrival
wait of wait_for_initial_change) saw no change inside its bound; a
stage-2 busy-indicator timeout and every stage-3 irregularity (setup
element failure, loop element failure, quiescence ceiling exceeded) are
soft — the detector still returns normally with best-effort content. -/
theorem stage_one_timeout_hard_later_timeouts_soft (env : WaitEnv) :
    exceptIsOk (wait_for_ai_response env) = wait_for_initial_change env := by
  unfold wait_for_ai_response wait_for_initial_change exceptIsOk
  by_cases h : env.initialChange <;> simp [h] <;> split_ifs <;> rfl

/-! ## C7: empty extraction is not escalated -/

/-- C7 counterexample: with no raised probe error, get_latest_message_safe
returns the empty string as a success instead of raising — both when no
message container exists and when the last container's texts are all
empty or pure chrome. -/
theorem empty_extraction_returned_as_success :
    get_latest_message_safe [] false = Except.ok "" ∧
    get_latest_message_safe
      [{ cleanMarkdown := "", cleanFull := "", rawFull := " 赞 " }] false =
      Except.ok "" := by
  exact ⟨rfl, rfl⟩

/-- C7 amended: get_latest_message_safe raises exactly when a probe
operation itself raises; when every probe operation succeeds the
extracted text is returned as a success even when it is empty — an
empty extraction is not escalated. -/
theorem empty_extraction_not_escalated (ms : List MsgContainer) :
    exceptIsOk (get_latest_message_safe ms false) = true ∧
    exceptIsOk (get_latest_message_safe ms true) = false := by
  refine ⟨?_, rfl⟩
  unfold get_latest_message_safe
  rw [if_neg (by simp)]
  dsimp only
  split
  · split <;> rfl
  · rfl

/-! ## Helper lemmas about the relay-loop machine -/

/-- A terminal state is absorbing and emits no event. -/
theorem terminal_absorb (R : RNGModel) (env : MEnv) (s : MState) (o : Outcome)
    (h : s.phase = .terminal o) : runOrchestratorStep R env s = (s, none) := by
  unfold runOrchestratorStep
  rw [h]

/-- Iterating from a terminal state stays at that very state. -/
theorem stateAt_terminal_fixed (R : RNGModel) (env : MEnv) (s : MState) (o : Outcome)
    (h : s.phase = .terminal o) (k : Nat) : stateAt R env s k = s := by
  induction k with
  | zero => rfl
  | succ n ih =>
      show (runOrchestratorStep R env (stateAt R env s n)).1 = s
      rw [ih, terminal_absorb R env s o h]

/-- Splitting an iteration at an intermediate point. -/
theorem stateAt_add (R : RNGModel) (env : MEnv) (s0 : MState) (m k : Nat) :
    stateAt R env s0 (m + k) = stateAt R env (stateAt R env s0 m) k := by
  induction k with
  | zero => rfl
  | succ n ih =>
      show (runOrchestratorStep R env (stateAt R env s0 (m + n))).1 = _
      rw [ih]
      rfl

/-- At any of the four checkpoints, a set stop flag moves the machine
into the stopped terminal state with the stop event. -/
theorem checkpoint_stop_step (R : RNGModel) (env : MEnv) (s : MState)
    (hc : isCheckpoint s.phase = true) (hs : env.stop s.stepIdx = true) :
    runOrchestratorStep R env s =
      (goto s (.terminal .stopped), some .stoppedByRequest) := by
  cases hp : s.phase <;> rw [hp] at hc <;> unfold runOrchestratorStep <;> rw [hp]
  case p0CheckStop => dsimp only; rw [if_pos hs]
  case cp1 => dsimp only; rw [if_pos hs]
  case cp2 => dsimp only; rw [if_pos hs]
  case cp3 => dsimp only; rw [if_pos hs]
  all_goals simp [isCheckpoint] at hc

/-- A recovery transition leaves the machine at the outer-loop top. -/
theorem recover_phase (R : RNGModel) (s : MState) :
    (recover R s).1.phase = .p0CheckStop := rfl

/-- A recovery transition that emits a rotation event forces the start
mode to new. -/
theorem recover_rotated (R : RNGModel) (s : MState) (d : Nat)
    (h : (recover R s).2 = some (.rotated d)) :
    (recover R s).1.recSt.startMode = .new := by
  have h2 : (applyFailure R s.recSt).2 = some d := by
    unfold recover at h
    dsimp only at h
    cases haf : (applyFailure R s.recSt).2 with
    | none => rw [haf] at h; simp at h
    | some a =>
        rw [haf] at h
        simp at h
        rw [h]
  show (applyFailure R s.recSt).1.startMode = .new
  exact applyFailure_rotated_mode R s.recSt d h2

/-- A fallible step that emits a rotation event is a recovery step. -/
theorem fallible_rotated (R : RNGModel) (env : MEnv) (s : MState)
    (next : MState × Option Event) (d : Nat)
    (hnx : ∀ d2 : Nat, next.2 ≠ some (.rotated d2))
    (h : (fallible R env s next).2 = some (.rotated d)) :
    (fallible R env s next).1.recSt.startMode = .new ∧
    (fallible R env s next).1.phase = .p0CheckStop := by
  by_cases hf : env.fails s.stepIdx
  · unfold fallible at h ⊢
    rw [if_pos hf] at h ⊢
    exact ⟨recover_rotated R s d h, recover_phase R s⟩
  · unfold fallible at h
    rw [if_neg hf] at h
    exact absurd h (hnx d)

/-- A transition that emits a rotation event lands at the outer-loop top
with start mode new. -/
theorem rotated_step_shape (R : RNGModel) (env : MEnv) (s : MState) (d : Nat)
    (h : (runOrchestratorStep R env s).2 = some (.rotated d)) :
    (runOrchestratorStep R env s).1.recSt.startMode = .new ∧
    (runOrchestratorStep R env s).1.phase = .p0CheckStop := by
  cases hp : s.phase <;> unfold runOrchestratorStep at h ⊢ <;> rw [hp] at h ⊢ <;>
    (try dsimp only at h ⊢)
  case p0CheckStop => split at h <;> simp at h
  case hsDispatch => cases hsm : s.recSt.startMode <;> rw [hsm] at h <;> simp at h
  case hsNewStability => exact fallible_rotated R env s _ d (by simp) h
  case hsNewCheckEmpty => split at h <;> simp at h
  case hsNewSend => exact fallible_rotated R env s _ d (by simp) h
  case hsNewAwait => exact fallible_rotated R env s _ d (by simp) h
  case hsResAStability => exact fallible_rotated R env s _ d (by simp) h
  case hsResBStabB => exact fallible_rotated R env s _ d (by simp) h
  case hsResBExtract => exact fallible_rotated R env s _ d (by simp) h
  case hsResBStabA => exact fallible_rotated R env s _ d (by simp) h
  case hsResBSend => exact fallible_rotated R env s _ d (by simp) h
  case hsResBAwait => exact fallible_rotated R env s _ d (by simp) h
  case cp1 => split at h <;> simp at h
  case extractA => exact fallible_rotated R env s _ d (by simp) h
  case termCheck => split at h <;> simp at h
  case stabilityB => exact fallible_rotated R env s _ d (by simp) h
  case cp2 => split at h <;> simp at h
  case sendB => exact fallible_rotated R env s _ d (by simp) h
  case awaitB => exact fallible_rotated R env s _ d (by simp) h
  case extractB => exact fallible_rotated R env s _ d (by simp) h
  case cp3 => split at h <;> simp at h
  case sendA => exact fallible_rotated R env s _ d (by simp) h
  case awaitA => exact fallible_rotated R env s _ d (by simp) h
  case resetErr => simp at h
  case terminal => simp at h

/-- A fallible step preserves the start mode being new and never lands
in a resume phase. -/
theorem fallible_keeps_new (R : RNGModel) (env : MEnv) (s : MState)
    (next : MState × Option Event)
    (h1 : s.recSt.startMode = .new)
    (hn1 : next.1.recSt.startMode = .new)
    (hn2 : isResumePhase next.1.phase = false) :
    (fallible R env s next).1.recSt.startMode = .new ∧
    isResumePhase (fallible R env s next).1.phase = false := by
  by_cases hf : env.fails s.stepIdx
  · unfold fallible
    rw [if_pos hf]
    exact ⟨applyFailure_keeps_new R s.recSt h1, rfl⟩
  · unfold fallible
    rw [if_neg hf]
    exact ⟨hn1, hn2⟩

/-- Once the start mode is new and the machine is outside the resume
phases, every transition keeps it so: the resume-specific handshake can
never be entered again. -/
theorem newMode_invariant (R : RNGModel) (env : MEnv) (s : MState)
    (h1 : s.recSt.startMode = .new) (h2 : isResumePhase s.phase = false) :
    (runOrchestratorStep R env s).1.recSt.startMode = .new ∧
    isResumePhase (runOrchestratorStep R env s).1.phase = false := by
  cases hp : s.phase <;> rw [hp] at h2 <;> unfold runOrchestratorStep <;> rw [hp] <;>
    (try dsimp only)
  case p0CheckStop => split <;> exact ⟨h1, rfl⟩
  case hsDispatch => rw [h1]; exact ⟨h1, rfl⟩
  case hsNewStability => exact fallible_keeps_new R env s _ h1 h1 rfl
  case hsNewCheckEmpty => split <;> exact ⟨h1, rfl⟩
  case hsNewSend => exact fallible_keeps_new R env s _ h1 h1 rfl
  case hsNewAwait => exact fallible_keeps_new R env s _ h1 h1 rfl
  case hsResAStability => simp [isResumePhase] at h2
  case hsResBStabB => simp [isResumePhase] at h2
  case hsResBExtract => simp [isResumePhase] at h2
  case hsResBStabA => simp [isResumePhase] at h2
  case hsResBSend => simp [isResumePhase] at h2
  case hsResBAwait => simp [isResumePhase] at h2
  case cp1 => split <;> exact ⟨h1, rfl⟩
  case extractA => exact fallible_keeps_new R env s _ h1 h1 rfl
  case termCheck => split <;> exact ⟨h1, rfl⟩
  case stabilityB => exact fallible_keeps_new R env s _ h1 h1 rfl
  case cp2 => split <;> exact ⟨h1, rfl⟩
  case sendB => exact fallible_keeps_new R env s _ h1 h1 rfl
  case awaitB => exact fallible_keeps_new R env s _ h1 h1 rfl
  case extractB => exact fallible_keeps_new R env s _ h1 h1 rfl
  case cp3 => split <;> exact ⟨h1, rfl⟩
  case sendA => exact fallible_keeps_new R env s _ h1 h1 rfl
  case awaitA => exact fallible_keeps_new R env s _ h1 h1 rfl
  case resetErr => exact ⟨h1, rfl⟩
  case terminal => exact ⟨h1, by rw [hp]; exact h2⟩

/-! ## C2: termination-phrase handling -/

/-- C2 counterexample: in a failure-free run, the message extracted from
participant B contains the termination phrase as a substring, yet the
relay loop does not enter a terminal state — two steps later it submits
that very message to participant A. -/
theorem termination_phrase_from_B_still_forwarded :
    eventAt R0 envRelay smNew 11 =
      some (.extracted .B "好的 TASK_COMPLETED_SUCCESSFULLY") ∧
    pyContains "好的 TASK_COMPLETED_SUCCESSFULLY" TERMINATION_PHRASE = true ∧
    eventAt R0 envRelay smNew 13 =
      some (.submitted .A "好的 TASK_COMPLETED_SUCCESSFULLY") ∧
    (stateAt R0 envRelay smNew 14).phase = .awaitA := by
  exact ⟨rfl, rfl, rfl, rfl⟩

/-- C2 amended: only the message extracted from participant A is checked
against the termination phrase.  When that message contains the phrase
anywhere as a substring, the loop moves to the finished terminal state
before any forwarding, surfaces the message as the final payload, stays
terminal forever and emits nothing further (no submission, surfaces
untouched); a message extracted from participant B is forwarded to A by
the sendA step regardless of its content. -/
theorem termination_checked_on_primary_extraction (R : RNGModel) (env : MEnv)
    (s : MState) (h1 : s.phase = .termCheck)
    (h2 : pyContains s.msgA TERMINATION_PHRASE = true) :
    (runOrchestratorStep R env s).1.phase = .terminal .finished ∧
    (runOrchestratorStep R env s).2 = some (.finishedTask s.msgA) ∧
    (∀ k, (stateAt R env (runOrchestratorStep R env s).1 k).phase =
      .terminal .finished) ∧
    (∀ k, eventAt R env (runOrchestratorStep R env s).1 k = none) ∧
    (∀ s2 : MState, s2.phase = .sendA → env.fails s2.stepIdx = false →
      (runOrchestratorStep R env s2).2 = some (.submitted .A s2.msgB)) := by
  have hstep : runOrchestratorStep R env s =
      (goto s (.terminal .finished), some (.finishedTask s.msgA)) := by
    unfold runOrchestratorStep
    rw [h1]
    simp [h2]
  have hterm : (runOrchestratorStep R env s).1.phase = .terminal .finished := by
    rw [hstep]; rfl
  refine ⟨hterm, by rw [hstep], ?_, ?_, ?_⟩
  · intro k
    rw [stateAt_terminal_fixed R env _ _ hterm k]
    exact hterm
  · intro k
    unfold eventAt
    rw [stateAt_terminal_fixed R env _ _ hterm k,
      terminal_absorb R env _ _ hterm]
  · intro s2 hs2 hf
    unfold runOrchestratorStep
    rw [hs2]
    dsimp only
    simp [fallible, hf]

/-- A concrete state sitting at the terminal check with a message from A
that contains the termination phrase in the middle. -/
def smTerm : MState :=
  { smNew with phase := .termCheck, msgA := "好的 TASK_COMPLETED_SUCCESSFULLY" }

/-- Witness for the amended C2 at a concrete terminal-check state. -/
theorem termination_checked_on_primary_extraction_witness :
    (runOrchestratorStep R0 envRelay smTerm).1.phase = .terminal .finished ∧
    (runOrchestratorStep R0 envRelay smTerm).2 =
      some (.finishedTask "好的 TASK_COMPLETED_SUCCESSFULLY") := by
  have h := termination_checked_on_primary_extraction R0 envRelay smTerm rfl (by rfl)
  exact ⟨h.1, h.2.1⟩

/-! ## C8: the external stop flag -/

/-- C8: with a monotone stop flag that is set at time t, as soon as the
machine sits at any of the four checkpoints with its step index at or
past t, the very next transition goes directly to the stopped terminal
outcome with the stop event, and no transition from then on ever submits
a message — the in-flight turn is not completed. -/
theorem stop_request_honored_at_next_checkpoint (R : RNGModel) (env : MEnv)
    (s0 : MState)
    (hmono : ∀ i j : Nat, i ≤ j → env.stop i = true → env.stop j = true)
    (t i : Nat) (hset : env.stop t = true)
    (hcp : isCheckpoint (stateAt R env s0 i).phase = true)
    (hidx : t ≤ (stateAt R env s0 i).stepIdx) :
    (stateAt R env s0 (i + 1)).phase = .terminal .stopped ∧
    eventAt R env s0 i = some .stoppedByRequest ∧
    ∀ j, i < j → ∀ (tgt : AgentAB) (m : String),
      eventAt R env s0 j ≠ some (.submitted tgt m) := by
  have hstop : env.stop (stateAt R env s0 i).stepIdx = true :=
    hmono t _ hidx hset
  have hstep := checkpoint_stop_step R env (stateAt R env s0 i) hcp hstop
  have h1 : (stateAt R env s0 (i + 1)).phase = .terminal .stopped := by
    show (runOrchestratorStep R env (stateAt R env s0 i)).1.phase = _
    rw [hstep]
    rfl
  refine ⟨h1, ?_, ?_⟩
  · show (runOrchestratorStep R env (stateAt R env s0 i)).2 = _
    rw [hstep]
  · intro j hj tgt m
    obtain ⟨k, rfl⟩ : ∃ k, j = (i + 1) + k := ⟨j - (i + 1), by omega⟩
    have hterm : stateAt R env s0 ((i + 1) + k) = stateAt R env s0 (i + 1) := by
      rw [stateAt_add]
      exact stateAt_terminal_fixed R env _ _ h1 k
    unfold eventAt
    rw [hterm, terminal_absorb R env _ _ h1]
    simp

/-- Witness for C8: the flag set from step index 4 on is observed at the
first inner checkpoint and no later step submits anything. -/
theorem stop_request_honored_at_next_checkpoint_witness :
    (stateAt R0 envStop4 smNew 5).phase = .terminal .stopped ∧
    eventAt R0 envStop4 smNew 4 = some .stoppedByRequest ∧
    (∀ (tgt : AgentAB) (m : String),
      eventAt R0 envStop4 smNew 7 ≠ some (.submitted tgt m)) := by
  have hmono : ∀ i j : Nat, i ≤ j → envStop4.stop i = true → envStop4.stop j = true := by
    intro i j hij hi
    simp only [envStop4, decide_eq_true_eq] at hi ⊢
    omega
  have h := stop_request_honored_at_next_checkpoint R0 envStop4 smNew hmono
    4 4 (by rfl) (by rfl) (by rfl)
  exact ⟨h.1, h.2.1, fun tgt m => h.2.2 7 (by omega) tgt m⟩

/-! ## C10: the post-rotation handshake -/

/-- C10: whenever a transition emits a rotation event, the next state
has start mode new at the outer-loop top, every later state stays
outside the resume-specific handshake phases (the resume synchronization
is never repeated), and the fresh-start handshake behaves as such: the
empty-surface check moves to the start-message submission exactly when
page A is empty, and that submission submits the start command. -/
theorem post_rotation_handshake_forced_new (R : RNGModel) (env : MEnv)
    (s0 : MState) (i d : Nat)
    (hrot : eventAt R env s0 i = some (.rotated d)) :
    (stateAt R env s0 (i + 1)).recSt.startMode = .new ∧
    (stateAt R env s0 (i + 1)).phase = .p0CheckStop ∧
    (∀ j, i < j → isResumePhase (stateAt R env s0 j).phase = false) ∧
    (∀ s : MState, s.phase = .hsNewCheckEmpty →
      (runOrchestratorStep R env s).1.phase =
        (if env.emptyA s.stepIdx then Phase.hsNewSend else Phase.cp1) ∧
      (runOrchestratorStep R env s).2 = none) ∧
    (∀ s : MState, s.phase = .hsNewSend → env.fails s.stepIdx = false →
      (runOrchestratorStep R env s).2 = some (.submitted .A START_CMD_MSG)) := by
  have hshape := rotated_step_shape R env (stateAt R env s0 i) d hrot
  have hP : ∀ k, (stateAt R env s0 ((i + 1) + k)).recSt.startMode = .new ∧
      isResumePhase (stateAt R env s0 ((i + 1) + k)).phase = false := by
    intro k
    induction k with
    | zero =>
        refine ⟨hshape.1, ?_⟩
        show isResumePhase (runOrchestratorStep R env (stateAt R env s0 i)).1.phase = false
        rw [hshape.2]
        rfl
    | succ n ih =>
        exact newMode_invariant R env (stateAt R env s0 ((i + 1) + n)) ih.1 ih.2
  refine ⟨hshape.1, hshape.2, ?_, ?_, ?_⟩
  · intro j hj
    obtain ⟨k, rfl⟩ : ∃ k, j = (i + 1) + k := ⟨j - (i + 1), by omega⟩
    exact (hP k).2
  · intro s hs
    unfold runOrchestratorStep
    rw [hs]
    dsimp only
    split
    · exact ⟨rfl, rfl⟩
    · exact ⟨rfl, rfl⟩
  · intro s hs hf
    unfold runOrchestratorStep
    rw [hs]
    dsimp only
    simp [fallible, hf]

/-- Witness for C10: three straight handshake failures in resume mode
rotate at step 8; afterwards the machine is in mode new at the
outer-loop top and out of the resume phases. -/
theorem post_rotation_handshake_forced_new_witness :
    eventAt R0 envFail smResA 8 = some (.rotated 15) ∧
    (stateAt R0 envFail smResA 9).recSt.startMode = .new ∧
    (stateAt R0 envFail smResA 9).phase = .p0CheckStop ∧
    isResumePhase (stateAt R0 envFail smResA 11).phase = false := by
  have h := post_rotation_handshake_forced_new R0 envFail smResA 8 15 (by rfl)
  exact ⟨by rfl, h.1, h.2.1, h.2.2.1 11 (by omega)⟩

end AntiAntiBot
